import Mathlib

/-!
Verification development for the Kalshi MCP server's authenticated request
pipeline (`src/kalshi_mcp.py`): request signing (`_sign_request`), the
rate limiter and retry logic in `_request`, and the `place_order` tool's
input validation.

Machine words are modelled as `Nat` reduced modulo `2 ^ 32` where the source
(SHA-256, RFC 8017) works with 32-bit words; byte strings are `List Nat`
with entries below 256; wall-clock time is `ℤ` in integral milliseconds
(every interval the code sleeps — 150 ms, 500 ms, 1 s, 2 s — is integral in
this unit), advanced only by
the sleeps the code performs.
-/

set_option maxRecDepth 100000

namespace KalshiMCP

/-! ## SHA-256 (FIPS 180-4), the digest used by `_sign_request` -/

/-- Truncate to a 32-bit word. -/
def w32 (n : Nat) : Nat := n % 4294967296

/-- Rotate a 32-bit word right by `n` bits. -/
def rotr (n x : Nat) : Nat := w32 ((x >>> n) ||| (x <<< (32 - n)))

def bsig0 (x : Nat) : Nat := (rotr 2 x) ^^^ (rotr 13 x) ^^^ (rotr 22 x)

def bsig1 (x : Nat) : Nat := (rotr 6 x) ^^^ (rotr 11 x) ^^^ (rotr 25 x)

def ssig0 (x : Nat) : Nat := (rotr 7 x) ^^^ (rotr 18 x) ^^^ (x >>> 3)

def ssig1 (x : Nat) : Nat := (rotr 17 x) ^^^ (rotr 19 x) ^^^ (x >>> 10)

def chF (x y z : Nat) : Nat := (x &&& y) ^^^ ((x ^^^ 4294967295) &&& z)

def majF (x y z : Nat) : Nat := (x &&& y) ^^^ (x &&& z) ^^^ (y &&& z)

/-- The 64 SHA-256 round constants (decimal). -/
def sha256K : List Nat :=
  [1116352408, 1899447441, 3049323471, 3921009573, 961987163,
   1508970993, 2453635748, 2870763221, 3624381080, 310598401,
   607225278, 1426881987, 1925078388, 2162078206, 2614888103,
   3248222580, 3835390401, 4022224774, 264347078, 604807628,
   770255983, 1249150122, 1555081692, 1996064986, 2554220882,
   2821834349, 2952996808, 3210313671, 3336571891, 3584528711,
   113926993, 338241895, 666307205, 773529912, 1294757372,
   1396182291, 1695183700, 1986661051, 2177026350, 2456956037,
   2730485921, 2820302411, 3259730800, 3345764771, 3516065817,
   3600352804, 4094571909, 275423344, 430227734, 506948616,
   659060556, 883997877, 958139571, 1322822218, 1537002063,
   1747873779, 1955562222, 2024104815, 2227730452, 2361852424,
   2428436474, 2756734187, 3204031479, 3329325298]

/-- SHA-256 initial hash value (decimal). -/
def sha256H0 : List Nat :=
  [1779033703, 3144134277, 1013904242, 2773480762, 1359893119,
   2600822924, 528734635, 1541459225]

/-- Extend the (reversed) message schedule by `fuel` further words. -/
def extendW : Nat → List Nat → List Nat
  | 0, acc => acc
  | fuel + 1, acc =>
    let nw := w32 (ssig1 (acc.getD 1 0) + acc.getD 6 0 + ssig0 (acc.getD 14 0) + acc.getD 15 0)
    extendW fuel (nw :: acc)

/-- Working state of one SHA-256 compression. -/
structure H8 where
  a : Nat
  b : Nat
  c : Nat
  d : Nat
  e : Nat
  f : Nat
  g : Nat
  h : Nat
  deriving DecidableEq, Repr

/-- One SHA-256 round with combined constant-plus-schedule word `kw`. -/
def sha256Round (st : H8) (kw : Nat) : H8 :=
  let t1 := st.h + bsig1 st.e + chF st.e st.f st.g + kw
  let t2 := bsig0 st.a + majF st.a st.b st.c
  ⟨w32 (t1 + t2), st.a, st.b, st.c, w32 (st.d + t1), st.e, st.f, st.g⟩

/-- Run the 64 rounds of one block given the 16 block words. -/
def sha256Compress (st : H8) (block : List Nat) : H8 :=
  let ws := (extendW 48 block.reverse).reverse
  let st2 := (List.zipWith (fun k w => w32 (k + w)) sha256K ws).foldl sha256Round st
  ⟨w32 (st.a + st2.a), w32 (st.b + st2.b), w32 (st.c + st2.c), w32 (st.d + st2.d),
   w32 (st.e + st2.e), w32 (st.f + st2.f), w32 (st.g + st2.g), w32 (st.h + st2.h)⟩

/-- Process a word stream 16 words (one 512-bit block) at a time. -/
def sha256Blocks : H8 → List Nat → H8
  | st, w0 :: w1 :: w2 :: w3 :: w4 :: w5 :: w6 :: w7 ::
        w8 :: w9 :: w10 :: w11 :: w12 :: w13 :: w14 :: w15 :: rest =>
    sha256Blocks (sha256Compress st [w0, w1, w2, w3, w4, w5, w6, w7,
                                     w8, w9, w10, w11, w12, w13, w14, w15]) rest
  | st, _ => st

/-- Big-endian 8-byte encoding of a bit length. -/
def be64 (n : Nat) : List Nat :=
  [(n >>> 56) % 256, (n >>> 48) % 256, (n >>> 40) % 256, (n >>> 32) % 256,
   (n >>> 24) % 256, (n >>> 16) % 256, (n >>> 8) % 256, n % 256]

/-- SHA-256 padding: append 0x80, zeros, and the 64-bit message bit length. -/
def sha256Pad (msg : List Nat) : List Nat :=
  let l := msg.length
  let zeros := (64 - (l + 9) % 64) % 64
  msg ++ (128 :: List.replicate zeros 0) ++ be64 (8 * l)

/-- Pack big-endian bytes into 32-bit words. -/
def bytesToWords : List Nat → List Nat
  | a :: b :: c :: d :: rest =>
    ((a <<< 24) ||| (b <<< 16) ||| (c <<< 8) ||| d) :: bytesToWords rest
  | _ => []

/-- Unpack a 32-bit word into 4 big-endian bytes. -/
def wordBytes (w : Nat) : List Nat :=
  [(w >>> 24) % 256, (w >>> 16) % 256, (w >>> 8) % 256, w % 256]

/-- SHA-256 of a byte string, as 32 bytes. -/
def sha256 (msg : List Nat) : List Nat :=
  let ws := bytesToWords (sha256Pad msg)
  let st := sha256Blocks ⟨sha256H0.getD 0 0, sha256H0.getD 1 0, sha256H0.getD 2 0,
    sha256H0.getD 3 0, sha256H0.getD 4 0, sha256H0.getD 5 0, sha256H0.getD 6 0,
    sha256H0.getD 7 0⟩ ws
  wordBytes st.a ++ wordBytes st.b ++ wordBytes st.c ++ wordBytes st.d ++
  wordBytes st.e ++ wordBytes st.f ++ wordBytes st.g ++ wordBytes st.h

/-! ## RSASSA-PSS (RFC 8017), the scheme invoked by `_sign_request` via
`private_key.sign(message, padding.PSS(mgf=MGF1(SHA256), salt_length=...), SHA256)` -/

/-- Big-endian 4-byte encoding of the MGF1 counter. -/
def be32 (n : Nat) : List Nat :=
  [(n >>> 24) % 256, (n >>> 16) % 256, (n >>> 8) % 256, n % 256]

/-- MGF1 mask generation over SHA-256 (RFC 8017 B.2.1). -/
def mgf1 (seed : List Nat) (maskLen : Nat) : List Nat :=
  ((List.range ((maskLen + 31) / 32)).foldl
    (fun acc c => acc ++ sha256 (seed ++ be32 c)) []).take maskLen

/-- OS2IP: big-endian bytes to a natural number. -/
def os2ip (bs : List Nat) : Nat := bs.foldl (fun acc b => acc * 256 + b) 0

def i2ospAux : Nat → Nat → List Nat → List Nat
  | 0, _, acc => acc
  | l + 1, x, acc => i2ospAux l (x / 256) (x % 256 :: acc)

/-- I2OSP: a natural number as `l` big-endian bytes. -/
def i2osp (l x : Nat) : List Nat := i2ospAux l x []

/-- Byte-wise xor of two equal-length byte strings. -/
def xorBytes (a b : List Nat) : List Nat := List.zipWith (fun x y => x ^^^ y) a b

/-- EMSA-PSS-ENCODE (RFC 8017 9.1.1) with SHA-256 and MGF1-SHA-256; the salt
is passed explicitly (the backend draws it from the OS RNG at call time). -/
def emsaPssEncode (M : List Nat) (emBits : Nat) (salt : List Nat) : List Nat :=
  let hLen := 32
  let sLen := salt.length
  let mHash := sha256 M
  let emLen := (emBits + 7) / 8
  let ps := List.replicate (emLen - sLen - hLen - 2) 0
  let db := ps ++ (1 :: salt)
  let hh := sha256 ((List.replicate 8 0 ++ mHash) ++ salt)
  let dbMask := mgf1 hh (emLen - hLen - 1)
  let maskedDB := xorBytes db dbMask
  let nbits := 8 * emLen - emBits
  match maskedDB with
  | [] => []
  | b0 :: rest => ((b0 &&& (255 >>> nbits)) :: rest) ++ (hh ++ [188])

/-- EMSA-PSS-VERIFY (RFC 8017 9.1.2) with SHA-256 and MGF1-SHA-256, for an
expected salt length `sLen`. -/
def emsaPssVerify (M EM : List Nat) (emBits sLen : Nat) : Bool :=
  let hLen := 32
  let mHash := sha256 M
  let emLen := (emBits + 7) / 8
  if emLen < hLen + sLen + 2 then false
  else if EM.getLastD 0 ≠ 188 then false
  else
    let maskedDB := EM.take (emLen - hLen - 1)
    let hh := (EM.drop (emLen - hLen - 1)).take hLen
    let nbits := 8 * emLen - emBits
    if nbits ≠ 0 ∧ maskedDB.headD 0 >>> (8 - nbits) ≠ 0 then false
    else
      let dbMask := mgf1 hh (emLen - hLen - 1)
      let db0 := xorBytes maskedDB dbMask
      let db := match db0 with
        | [] => []
        | b0 :: rest => (b0 &&& (255 >>> nbits)) :: rest
      let psLen := emLen - hLen - sLen - 2
      if (db.take psLen).any (fun b => b ≠ 0) then false
      else if db.getD psLen 0 ≠ 1 then false
      else
        let salt := db.drop (db.length - sLen)
        let hp := sha256 ((List.replicate 8 0 ++ mHash) ++ salt)
        hp == hh

/-- Fuel-bounded modular exponentiation: square-and-multiply with an
accumulator, `powModAux fuel acc b e n = acc * b ^ e % n` for positive
inputs and sufficient fuel. -/
def powModAux : Nat → Nat → Nat → Nat → Nat → Nat
  | 0, acc, _, _, n => acc % n
  | fuel + 1, acc, b, e, n =>
    if acc = 0 then 0
    else if b = 0 then (if e = 0 then acc % n else 0)
    else if e = 0 then acc % n
    else powModAux fuel (if e % 2 = 1 then (acc * b) % n else acc) ((b * b) % n) (e / 2) n

def powMod (fuel b e n : Nat) : Nat := powModAux fuel (1 % n) b e n

def bitLenAux : Nat → Nat → Nat
  | 0, _ => 0
  | fuel + 1, n => if n = 0 then 0 else bitLenAux fuel (n / 2) + 1

/-- Bit length of a natural number (fuel-bounded; exact below `2 ^ 2048`). -/
def bitLen (n : Nat) : Nat := bitLenAux 2048 n

/-- An RSA private key `(n, d)` as held in the process-wide `private_key`. -/
structure RsaPrivKey where
  n : Nat
  d : Nat
  deriving DecidableEq

/-- An RSA public key `(n, e)`. -/
structure RsaPubKey where
  n : Nat
  e : Nat
  deriving DecidableEq

def RsaPrivKey.modBits (key : RsaPrivKey) : Nat := bitLen key.n

def RsaPubKey.modBits (key : RsaPubKey) : Nat := bitLen key.n

/-- RSASSA-PSS-SIGN (RFC 8017 8.1.1): EMSA-PSS encode, then RSA private-key
operation, then I2OSP to the key's octet length. -/
def rsassaPssSign (key : RsaPrivKey) (M salt : List Nat) : List Nat :=
  let emBits := key.modBits - 1
  let k := (key.modBits + 7) / 8
  let em := emsaPssEncode M emBits salt
  i2osp k (powMod (bitLen key.d + 1) (os2ip em) key.d key.n)

/-- RSASSA-PSS-VERIFY (RFC 8017 8.1.2) for an expected salt length `sLen`. -/
def rsassaPssVerify (key : RsaPubKey) (M S : List Nat) (sLen : Nat) : Bool :=
  let emBits := key.modBits - 1
  let emLen := (emBits + 7) / 8
  let s := os2ip S
  if s ≥ key.n then false
  else emsaPssVerify M (i2osp emLen (powMod (bitLen key.e + 1) s key.e key.n)) emBits sLen

/-! ## A concrete 768-bit RSA test key (generated for these theorems; stands
in for the key `_load_private_key` reads from `KALSHI_PRIVATE_KEY_PATH`) -/

def testN : Nat := 837759022848001400666935415496679264282224341078020191781222279929661333194109223330206815507240536503788118401082114679869529359054937827005282468354208802449340516920726181635366800695956665563212451150778093954758143571333293999

def testD : Nat := 348272648694535882954219073122160406417278822232794606483046233679961289391847441744838559721909278988139635409577500226662602901365477889583126569768139014368520270663497491617138163367634464628039480909884874857626692867379753473

def testKey : RsaPrivKey := ⟨testN, testD⟩

def testPub : RsaPubKey := ⟨testN, 65537⟩

/-! ## base64 encoding (module `base64.b64encode`: RFC 4648 standard
alphabet, no line wraps) -/

def b64Chars : List Char :=
  "ABCDEFGHIJKLMNOPQRSTUVWXYZabcdefghijklmnopqrstuvwxyz0123456789+/".data

def b64At (n : Nat) : Char := b64Chars.getD (n % 64) 'A'

def base64Core : List Nat → List Char
  | [] => []
  | [a] => [b64At (a >>> 2), b64At ((a &&& 3) <<< 4), '=', '=']
  | [a, b] => [b64At (a >>> 2), b64At (((a &&& 3) <<< 4) ||| (b >>> 4)),
               b64At ((b &&& 15) <<< 2), '=']
  | a :: b :: c :: rest =>
    [b64At (a >>> 2), b64At (((a &&& 3) <<< 4) ||| (b >>> 4)),
     b64At (((b &&& 15) <<< 2) ||| (c >>> 6)), b64At (c &&& 63)] ++ base64Core rest

/-- `base64.b64encode(..).decode("utf-8")`. -/
def base64Encode (bs : List Nat) : String := ⟨base64Core bs⟩

/-! ## UTF-8 encoding (`str.encode("utf-8")`) -/

def utf8Bytes (c : Char) : List Nat :=
  let n := c.toNat
  if n < 128 then [n]
  else if n < 2048 then [192 ||| (n >>> 6), 128 ||| (n &&& 63)]
  else if n < 65536 then
    [224 ||| (n >>> 12), 128 ||| ((n >>> 6) &&& 63), 128 ||| (n &&& 63)]
  else
    [240 ||| (n >>> 18), 128 ||| ((n >>> 12) &&& 63),
     128 ||| ((n >>> 6) &&& 63), 128 ||| (n &&& 63)]

def utf8Encode (s : String) : List Nat := s.data.foldl (fun acc c => acc ++ utf8Bytes c) []

/-! ## `_sign_request` (src/kalshi_mcp.py lines 52-63) -/

/-- A digest algorithm as passed to the cryptographic backend. -/
inductive HashAlg where
  | sha1
  | sha256
  deriving DecidableEq

/-- The salt-length sentinel passed to `padding.PSS`: `PSS.DIGEST_LENGTH`
(salt as long as the digest) or `PSS.MAX_LENGTH` (largest salt the key
permits). -/
inductive SaltLenSpec where
  | digestLength
  | maxLength
  deriving DecidableEq

/-- The `padding.PSS(mgf=MGF1(hash), salt_length=...)` configuration plus
the digest argument of `sign`. -/
structure PssConfig where
  mgfHash : HashAlg
  salt_length : SaltLenSpec
  digest : HashAlg
  deriving DecidableEq

/-- The configuration `_sign_request` passes to `private_key.sign`:
`PSS(mgf=MGF1(SHA256()), salt_length=PSS.DIGEST_LENGTH)` with digest
`SHA256()`. -/
def signRequestConfig : PssConfig := ⟨.sha256, .digestLength, .sha256⟩

/-- Concrete salt length, in bytes, that a sentinel resolves to for a given
key and SHA-256 (digest length 32; maximum permitted is `emLen - hLen - 2`,
RFC 8017 9.1.1 step 3). -/
def saltLenBytes (key : RsaPrivKey) : SaltLenSpec → Nat
  | .digestLength => 32
  | .maxLength => ((key.modBits - 1) + 7) / 8 - 32 - 2

/-- The message string `f"{timestamp}{method}{path}"` of `_sign_request`. -/
def signMessage (method path : String) (timestamp : Int) : String :=
  toString timestamp ++ method ++ path

/-- The signature bytes `_sign_request` obtains from
`private_key.sign(message.encode("utf-8"), PSS(MGF1(SHA256), DIGEST_LENGTH), SHA256)`;
`salt` is the random salt the backend draws (its length is the resolved
`DIGEST_LENGTH`, 32 bytes). -/
def signRequestBytes (key : RsaPrivKey) (method path : String) (timestamp : Int)
    (salt : List Nat) : List Nat :=
  rsassaPssSign key (utf8Encode (signMessage method path timestamp)) salt

/-- The full `_sign_request`: sign, then `base64.b64encode(..).decode("utf-8")`. -/
def signRequestStr (key : RsaPrivKey) (method path : String) (timestamp : Int)
    (salt : List Nat) : String :=
  base64Encode (signRequestBytes key method path timestamp salt)

/-! ## Configuration constants (src/kalshi_mcp.py lines 26-34)

`API_BASE` is modelled at its default value (the `KALSHI_API_BASE`
environment override is out of scope); note the default already ends in
`/trade-api/v2`. -/

def API_BASE : String := "https://api.elections.kalshi.com/trade-api/v2"

/-- `MIN_REQUEST_INTERVAL = 0.15` seconds, i.e. 150 ms. -/
def MIN_REQUEST_INTERVAL : ℤ := 150

/-- The version segment prepended to the endpoint on line 78:
`path = f"/trade-api/v2{endpoint}"`. -/
def apiVersionSegment : String := "/trade-api/v2"

/-- The canonical signed path: `f"/trade-api/v2{endpoint}"`. -/
def signedPathOf (endpoint : String) : String := apiVersionSegment ++ endpoint

/-- The dispatch URL: `f"{API_BASE}{endpoint}"` (line 88). -/
def requestUrlOf (endpoint : String) : String := API_BASE ++ endpoint

/-- `str.upper()` for the ASCII method names used here. -/
def pyUpper (s : String) : String := s.map Char.toUpper

/-! ## The request pipeline `_request` (src/kalshi_mcp.py lines 66-108)

Wall-clock time is a rational number of seconds and advances exactly by the
sleeps the code performs (`time.sleep` in the rate limiter and the backoff);
`time.time()` reads the current instant. The HTTP transport is a list of
responses, one per dispatch, indexed by dispatch count; the random PSS salt
drawn by the backend for dispatch `i` is `salts i`. -/

/-- A JSON scalar appearing in a request payload. -/
inductive JVal where
  | str (s : String)
  | int (i : Int)
  deriving DecidableEq, Repr

/-- A JSON object payload, as the ordered fields of the Python dict. -/
abbrev Payload : Type := List (String × JVal)

/-- An HTTP response from the transport. -/
structure Resp where
  status : Nat
  body : String
  deriving DecidableEq, Repr

/-- The exceptions `_request` can raise: `httpx.HTTPStatusError` (from
`raise_for_status`, carrying the response status and body text) and
transport-level failures. -/
inductive ReqError where
  | httpStatusError (status : Nat) (body : String)
  | transportError (msg : String)
  deriving DecidableEq, Repr

/-- The exception class name, what a caller catching by type can see. -/
def ReqError.kindName : ReqError → String
  | .httpStatusError _ _ => "HTTPStatusError"
  | .transportError _ => "TransportError"

/-- One dispatched HTTP request with the authentication material computed
for it. -/
structure Dispatch where
  method : String
  url : String
  path : String
  timestamp : Int
  signature : String
  jsonBody : Option Payload
  acquiredAt : ℤ
  deriving DecidableEq

/-- Process state threaded through `_request`: the clock, the global
`last_request_time`, and traces of the sleeps performed and requests
dispatched. -/
structure PState where
  now : ℤ
  lastRequestTime : ℤ
  sleeps : List ℤ
  dispatches : List Dispatch
  deriving DecidableEq

/-- Lines 70-74: sleep until `MIN_REQUEST_INTERVAL` has elapsed since
`last_request_time`, then set `last_request_time = time.time()`. -/
def acquire (s : PState) : PState :=
  let elapsed := s.now - s.lastRequestTime
  let s1 :=
    if elapsed < MIN_REQUEST_INTERVAL then
      { s with now := s.now + (MIN_REQUEST_INTERVAL - elapsed),
               sleeps := s.sleeps ++ [MIN_REQUEST_INTERVAL - elapsed] }
    else s
  { s1 with lastRequestTime := s1.now }

/-- Line 101: `response.raise_for_status()` then `return response.json()`;
httpx raises `HTTPStatusError` for any non-2xx status. -/
def raiseForStatus (resp : Resp) : Except ReqError String :=
  if 200 ≤ resp.status ∧ resp.status < 300 then .ok resp.body
  else .error (.httpStatusError resp.status resp.body)

/-- One attempt of `_request` up to the transport call (lines 70-92):
rate-limit, compute the timestamp `int(time.time() * 1000)` (the clock
already counts integral milliseconds), build the signed path, sign, record
the dispatch, and look up the transport response for it. -/
def attemptOnce (key : RsaPrivKey) (transport : List Resp) (salts : Nat → List Nat)
    (method endpoint : String) (jsonBody : Option Payload) (s0 : PState) :
    PState × Option Resp :=
  let s1 := acquire s0
  let timestamp : Int := s1.now
  let path := signedPathOf endpoint
  let signature := signRequestStr key (pyUpper method) path timestamp
    (salts s1.dispatches.length)
  let url := requestUrlOf endpoint
  let s2 := { s1 with dispatches :=
    s1.dispatches ++ [⟨method, url, path, timestamp, signature, jsonBody, s1.now⟩] }
  (s2, transport[s1.dispatches.length]?)

/-- The retry loop of `_request` (lines 91-108), recursion counted down:
`retriesLeft = 3 - retry` and `retryNum = retry`, so the guard
`status_code == 429 and retry < 3` is the 429 test inside the
`retriesLeft ≠ 0` branch, and the backoff is `(2 ** retry) * 0.5` seconds,
i.e. `2 ^ retry * 500` ms. -/
def requestGo (key : RsaPrivKey) (transport : List Resp) (salts : Nat → List Nat)
    (method endpoint : String) (jsonBody : Option Payload) :
    Nat → Nat → PState → Except ReqError String × PState
  | 0, _, s0 =>
    match attemptOnce key transport salts method endpoint jsonBody s0 with
    | (s2, none) => (.error (.transportError "request failed"), s2)
    | (s2, some resp) => (raiseForStatus resp, s2)
  | rl + 1, retryNum, s0 =>
    match attemptOnce key transport salts method endpoint jsonBody s0 with
    | (s2, none) => (.error (.transportError "request failed"), s2)
    | (s2, some resp) =>
      if resp.status = 429 then
        let backoff := (2 : ℤ) ^ retryNum * 500
        requestGo key transport salts method endpoint jsonBody rl (retryNum + 1)
          { s2 with now := s2.now + backoff, sleeps := s2.sleeps ++ [backoff] }
      else (raiseForStatus resp, s2)

/-- `_request(method, endpoint, retry=0, ...)`: up to 3 retries. -/
def requestRun (key : RsaPrivKey) (transport : List Resp) (salts : Nat → List Nat)
    (method endpoint : String) (jsonBody : Option Payload) (s : PState) :
    Except ReqError String × PState :=
  requestGo key transport salts method endpoint jsonBody 3 0 s

/-- Extract the raised exception, if any. -/
def resultErr : Except ReqError String × PState → Option ReqError
  | (.error e, _) => some e
  | (.ok _, _) => none

/-! ## The rate limiter in isolation (same lines 70-74, on a bare
`(now, last_request_time)` state) -/

structure RLState where
  now : ℤ
  last : ℤ
  deriving DecidableEq, Repr

/-- One `acquire()`: sleep out the remainder of the interval, then record
the current time as the new reference point. -/
def rlAcquire (s : RLState) : RLState :=
  let elapsed := s.now - s.last
  let now2 :=
    if elapsed < MIN_REQUEST_INTERVAL then s.now + (MIN_REQUEST_INTERVAL - elapsed)
    else s.now
  ⟨now2, now2⟩

/-- Run a sequence of acquires back-to-back; before the `i`-th call the
caller idles for `gs[i]` seconds. Returns the dispatch instants. -/
def rlRun : RLState → List ℤ → List ℤ
  | _, [] => []
  | s, g :: gs =>
    let s1 := rlAcquire ⟨s.now + g, s.last⟩
    s1.now :: rlRun s1 gs

/-! ## Two concurrent callers interleaved on the shared
`last_request_time` (src/kalshi_mcp.py lines 70-74, no lock in the code)

Each caller executes the rate-limiting section as two steps whose boundary
is the read-then-write on the shared variable: first the read of
`last_request_time` that fixes the sleep amount (line 71-72), then the
sleep plus the write `last_request_time = time.time()` (lines 73-74).
A schedule picks which caller steps next. -/

/-- Program counter of one caller inside the rate-limiting section. -/
inductive TPC where
  | start
  | ready (sleepNeed : ℤ)
  | done (dispatchTime : ℤ)
  deriving DecidableEq, Repr

/-- Shared state plus the two callers. -/
structure RaceState where
  now : ℤ
  last : ℤ
  pcA : TPC
  pcB : TPC
  deriving DecidableEq, Repr

/-- One step of one caller against the shared clock and
`last_request_time`. -/
def stepPC (now last : ℤ) : TPC → ℤ × ℤ × TPC
  | .start =>
    let elapsed := now - last
    let need := if elapsed < MIN_REQUEST_INTERVAL then MIN_REQUEST_INTERVAL - elapsed else 0
    (now, last, .ready need)
  | .ready need =>
    let now2 := now + need
    (now2, now2, .done now2)
  | .done t => (now, last, .done t)

/-- Step the scheduled caller (`false` = A, `true` = B). -/
def raceStep (s : RaceState) (tid : Bool) : RaceState :=
  if tid then
    let r := stepPC s.now s.last s.pcB
    ⟨r.1, r.2.1, s.pcA, r.2.2⟩
  else
    let r := stepPC s.now s.last s.pcA
    ⟨r.1, r.2.1, r.2.2, s.pcB⟩

/-- Run a schedule of interleaved steps. -/
def raceRun (s : RaceState) (sched : List Bool) : RaceState :=
  sched.foldl raceStep s

/-! ## `place_order` (src/kalshi_mcp.py lines 280-331) -/

/-- The order payload built on lines 302-313: base fields plus `yes_price`
or `no_price` depending on the side. -/
def orderPayload (ticker side : String) (quantity price_cents : Int) : Payload :=
  [("ticker", .str ticker), ("action", .str "buy"), ("side", .str side),
   ("count", .int quantity), ("type", .str "limit")] ++
  (if side = "yes" then [("yes_price", JVal.int price_cents)]
   else [("no_price", JVal.int price_cents)])

/-- The tool `place_order(ticker, side, quantity, price_cents)`: argument
validation, then a POST through `_request`; the JSON shaping of the order
confirmation on success, and the text of a caught exception, are opaque
here (the response body and the exception kind stand in for them). -/
def place_order (key : RsaPrivKey) (transport : List Resp) (salts : Nat → List Nat)
    (ticker side : String) (quantity price_cents : Int) (s : PState) :
    String × PState :=
  if ¬(side = "yes" ∨ side = "no") then
    ("Error: side must be \x27yes\x27 or \x27no\x27, got \x27" ++ side ++ "\x27", s)
  else if quantity < 1 then
    ("Error: quantity must be positive integer, got " ++ toString quantity, s)
  else if price_cents < 1 ∨ price_cents > 99 then
    ("Error: price_cents must be 1-99, got " ++ toString price_cents, s)
  else
    match requestRun key transport salts "POST" "/portfolio/orders"
      (some (orderPayload ticker side quantity price_cents)) s with
    | (.ok body, s2) => (body, s2)
    | (.error e, s2) => ("Error placing order: " ++ e.kindName, s2)

/-! ## Concrete scenario inputs for the closed theorems -/

/-- A 32-byte salt (the resolved `DIGEST_LENGTH` for SHA-256). -/
def saltA : List Nat :=
  [0, 1, 2, 3, 4, 5, 6, 7, 8, 9, 10, 11, 12, 13, 14, 15, 16, 17, 18, 19,
   20, 21, 22, 23, 24, 25, 26, 27, 28, 29, 30, 31]

/-- A second, different 32-byte salt. -/
def saltB : List Nat := List.replicate 32 170

/-- The signed message bytes for `GET /trade-api/v2/markets` at timestamp
1739000000000 ms. -/
def msg1 : List Nat := utf8Encode (signMessage "GET" "/trade-api/v2/markets" 1739000000000)

/-- The signature `_sign_request` produces on `msg1` when the backend draws
`saltA`, as an explicit constant (cross-checked against an independent
RFC 8017 implementation). -/
def sig1Golden : List Nat :=
  [107, 173, 242, 158, 118, 129, 64, 203, 142, 81, 128, 137, 180, 255, 136, 28,
   88, 5, 11, 142, 23, 134, 158, 35, 136, 41, 161, 229, 138, 238, 24, 11,
   202, 90, 19, 23, 124, 14, 246, 86, 175, 218, 32, 18, 35, 141, 73, 96,
   144, 253, 184, 17, 70, 182, 191, 151, 133, 236, 55, 218, 76, 70, 242, 60,
   46, 226, 155, 154, 100, 91, 179, 171, 231, 214, 113, 31, 129, 114, 252, 62,
   58, 84, 194, 144, 69, 240, 158, 193, 220, 68, 225, 186, 34, 7, 13, 254]

/-- Characters base64 may produce: the standard alphabet plus padding. -/
def isStdB64Char (c : Char) : Bool := b64Chars.contains c || c == '='

/-- Every dispatch draws the all-zero 32-byte salt. -/
def salts0 : Nat → List Nat := fun _ => List.replicate 32 0

/-- Initial process state: clock at 100 s (100000 ms),
`last_request_time = 0.0` (its module-level initial value), nothing slept
or dispatched. -/
def ps0 : PState := ⟨100000, 0, [], []⟩

/-- Mock transport: 429 three times, then 200. -/
def backoffTransport : List Resp :=
  [⟨429, "slow"⟩, ⟨429, "slow"⟩, ⟨429, "slow"⟩, ⟨200, "MARKET-DATA"⟩]

/-- Mock transport: 429 on every attempt. -/
def throttleTransport : List Resp := List.replicate 8 ⟨429, "slow"⟩

/-- Mock transport: a single 404, with a 200 behind it that a retry would
reach. -/
def notFoundTransport : List Resp := [⟨404, "not found"⟩, ⟨200, "late"⟩]

/-- Mock transport for order placement. -/
def orderTransport : List Resp := [⟨201, "ORDER-OK"⟩]

/-- The pipeline run against `backoffTransport`. -/
def run429x3 : Except ReqError String × PState :=
  requestRun testKey backoffTransport salts0 "get" "/markets" none ps0

/-- The pipeline run against `throttleTransport`. -/
def run429x4 : Except ReqError String × PState :=
  requestRun testKey throttleTransport salts0 "get" "/markets" none ps0

/-- The pipeline run against `notFoundTransport`. -/
def run404 : Except ReqError String × PState :=
  requestRun testKey notFoundTransport salts0 "get" "/markets" none ps0

/-! ## Helper lemmas -/

theorem getLastD_default_irrel (b : ℤ) (r : List ℤ) (d1 d2 : ℤ) :
    (b :: r).getLastD d1 = (b :: r).getLastD d2 := by
  cases r with
  | nil => rfl
  | cons c r => simp only [List.getLastD_cons]

/-- Along a chain with steps of at least `c`, the last element exceeds the
first by at least `(length - 1) * c`. -/
theorem chain_spaced_total (c : ℤ) : ∀ ts : List ℤ,
    List.Chain' (fun a b => a + c ≤ b) ts →
    ts.headD 0 + ((ts.length - 1 : ℕ) : ℤ) * c ≤ ts.getLastD 0
  | [] => by simp
  | [a] => by simp
  | a :: b :: r => by
    intro h
    rw [List.chain'_cons] at h
    have ih := chain_spaced_total c (b :: r) h.2
    have hlast : (a :: b :: r).getLastD 0 = (b :: r).getLastD 0 := by
      rw [List.getLastD_cons]
      exact getLastD_default_irrel b r a 0
    rw [hlast]
    simp only [List.headD_cons, List.length_cons] at ih ⊢
    have hc : ((r.length + 1 + 1 - 1 : ℕ) : ℤ) = ((r.length + 1 - 1 : ℕ) : ℤ) + 1 := by
      simp
    rw [hc]
    have := h.1
    nlinarith [ih, h.1]

/-- Each `acquire()` returns at time at least `MIN_REQUEST_INTERVAL` past
the recorded reference point it read. -/
theorem rlAcquire_spaced (s : RLState) :
    s.last + MIN_REQUEST_INTERVAL ≤ (rlAcquire s).now := by
  by_cases h : s.now - s.last < MIN_REQUEST_INTERVAL <;>
    simp [rlAcquire, h] <;> linarith

theorem rlAcquire_last_eq (s : RLState) : (rlAcquire s).last = (rlAcquire s).now := rfl

/-- The first dispatch of a run is at least an interval past the incoming
reference point. -/
theorem rlRun_head_spaced (s : RLState) (g : ℤ) (gs : List ℤ) :
    s.last + MIN_REQUEST_INTERVAL ≤ (rlRun s (g :: gs)).headD 0 := by
  simp only [rlRun, List.headD_cons]
  exact rlAcquire_spaced ⟨s.now + g, s.last⟩

/-- Consecutive dispatch instants are at least an interval apart. -/
theorem rlRun_chain : ∀ (gs : List ℤ) (s : RLState),
    List.Chain' (fun a b => a + MIN_REQUEST_INTERVAL ≤ b) (rlRun s gs)
  | [], _ => by simp [rlRun]
  | g :: gs, s => by
    simp only [rlRun]
    rw [List.chain'_cons']
    refine ⟨?_, rlRun_chain gs _⟩
    intro y hy
    cases gs with
    | nil => simp [rlRun] at hy
    | cons g2 gs2 =>
      have hh := rlRun_head_spaced (rlAcquire ⟨s.now + g, s.last⟩) g2 gs2
      rw [rlAcquire_last_eq] at hh
      have : (rlRun (rlAcquire ⟨s.now + g, s.last⟩) (g2 :: gs2)).headD 0 = y := by
        cases hz : rlRun (rlAcquire ⟨s.now + g, s.last⟩) (g2 :: gs2) with
        | nil => rw [hz] at hy; simp at hy
        | cons z zs =>
          rw [hz] at hy
          simp only [List.head?_cons, Option.mem_def, Option.some.injEq] at hy
          simp [hy]
      rw [← this]
      exact hh

/-- `acquire` touches only the clock, the sleep trace and
`last_request_time`. -/
theorem acquire_dispatches (s : PState) : (acquire s).dispatches = s.dispatches := by
  by_cases h : s.now - s.lastRequestTime < MIN_REQUEST_INTERVAL <;> simp [acquire, h]

/-- The state after one attempt extends the dispatch trace by exactly one
record carrying the signed path, the dispatch URL, the body, and a
signature over the attempt's own fresh timestamp. -/
theorem attemptOnce_fst_dispatches (key : RsaPrivKey) (transport : List Resp)
    (salts : Nat → List Nat) (method endpoint : String) (jb : Option Payload)
    (s0 : PState) :
    (attemptOnce key transport salts method endpoint jb s0).1.dispatches
      = s0.dispatches ++
        [⟨method, requestUrlOf endpoint, signedPathOf endpoint, (acquire s0).now,
          signRequestStr key (pyUpper method) (signedPathOf endpoint) (acquire s0).now
            (salts (acquire s0).dispatches.length), jb, (acquire s0).now⟩] := by
  simp [attemptOnce, acquire_dispatches]

/-- Membership in the post-attempt dispatch trace: either an old dispatch
or the freshly recorded one, which carries the advertised fields. -/
theorem attempt_mem (key : RsaPrivKey) (transport : List Resp)
    (salts : Nat → List Nat) (method endpoint : String) (jb : Option Payload)
    (s s2 : PState) (d : Dispatch)
    (heq : (attemptOnce key transport salts method endpoint jb s).1 = s2)
    (hd : d ∈ s2.dispatches) :
    d ∈ s.dispatches ∨
      (d.method = method ∧ d.path = signedPathOf endpoint ∧
       d.url = requestUrlOf endpoint ∧ d.jsonBody = jb ∧
       ∃ i, d.signature
         = signRequestStr key (pyUpper method) (signedPathOf endpoint) d.timestamp (salts i)) := by
  subst heq
  rw [attemptOnce_fst_dispatches, List.mem_append] at hd
  rcases hd with hd | hd
  · exact Or.inl hd
  · simp only [List.mem_singleton] at hd
    subst hd
    exact Or.inr ⟨rfl, rfl, rfl, rfl, _, rfl⟩

/-- Every dispatch a `requestGo` run appends carries the method, the
version-prefixed signed path, the base-URL dispatch target, the request
body, and a signature computed over its own (fresh) timestamp. -/
theorem requestGo_dispatches_spec (key : RsaPrivKey) (transport : List Resp)
    (salts : Nat → List Nat) (method endpoint : String) (jb : Option Payload) :
    ∀ (rl rn : Nat) (s : PState),
      ∀ d ∈ (requestGo key transport salts method endpoint jb rl rn s).2.dispatches,
        d ∈ s.dispatches ∨
          (d.method = method ∧ d.path = signedPathOf endpoint ∧
           d.url = requestUrlOf endpoint ∧ d.jsonBody = jb ∧
           ∃ i, d.signature
             = signRequestStr key (pyUpper method) (signedPathOf endpoint) d.timestamp (salts i)) := by
  intro rl
  induction rl with
  | zero =>
    intro rn s d hd
    rw [requestGo] at hd
    split at hd
    · rename_i s2 heq
      exact attempt_mem key transport salts method endpoint jb s s2 d
        (congrArg Prod.fst heq) hd
    · rename_i s2 resp heq
      exact attempt_mem key transport salts method endpoint jb s s2 d
        (congrArg Prod.fst heq) hd
  | succ n ih =>
    intro rn s d hd
    rw [requestGo] at hd
    split at hd
    · rename_i s2 heq
      exact attempt_mem key transport salts method endpoint jb s s2 d
        (congrArg Prod.fst heq) hd
    · rename_i s2 resp heq
      split at hd
      · rcases ih (rn + 1) _ d hd with h | h
        · exact attempt_mem key transport salts method endpoint jb s s2 d
            (congrArg Prod.fst heq) h
        · exact Or.inr h
      · exact attempt_mem key transport salts method endpoint jb s s2 d
          (congrArg Prod.fst heq) hd

/-- Base64 output characters come from the standard alphabet table. -/
theorem b64At_std (n : Nat) : isStdB64Char (b64At n) = true := by
  have h : n % 64 < 64 := Nat.mod_lt _ (by norm_num)
  have hall : ∀ m, m < 64 → isStdB64Char (b64Chars.getD m (Char.ofNat 65)) = true := by decide
  have := hall (n % 64) h
  simpa [b64At] using this

/-- A standard-alphabet base64 character is never a newline. -/
theorem isStdB64Char_ne_newline (c : Char) (h : isStdB64Char c = true) :
    c ≠ Char.ofNat 10 := by
  intro hc
  rw [hc] at h
  exact absurd h (by decide)

/-- Every character base64 encoding emits is in the standard alphabet or
the padding character. -/
theorem base64Core_chars : ∀ bs : List Nat, ∀ c ∈ base64Core bs, isStdB64Char c = true
  | [] => by simp [base64Core]
  | [a] => by
    intro c hc
    simp only [base64Core, List.mem_cons, List.not_mem_nil, or_false] at hc
    rcases hc with h | h | h | h <;> subst h
    · exact b64At_std _
    · exact b64At_std _
    · decide
    · decide
  | [a, b] => by
    intro c hc
    simp only [base64Core, List.mem_cons, List.not_mem_nil, or_false] at hc
    rcases hc with h | h | h | h <;> subst h
    · exact b64At_std _
    · exact b64At_std _
    · exact b64At_std _
    · decide
  | a :: b :: c2 :: rest => by
    intro c hc
    simp only [base64Core, List.cons_append, List.nil_append, List.mem_cons] at hc
    rcases hc with h | h | h | h | h
    · subst h; exact b64At_std _
    · subst h; exact b64At_std _
    · subst h; exact b64At_std _
    · subst h; exact b64At_std _
    · exact base64Core_chars rest c h

/-! ## Claim theorems -/

/-- C6 (confirmed): every call through the rate limiter blocks until at
least `MIN_REQUEST_INTERVAL` (150 ms) has elapsed since the previous call's
recorded reference time and then records the current time as the new
reference point, so consecutive dispatch instants are at least an interval
apart and the elapsed time from first to last of `N` back-to-back calls is
at least `(N-1) * MIN_REQUEST_INTERVAL`; the pipeline's `acquire` step
performs exactly this update on its state. -/
theorem rateLimiter_spacing (s : RLState) (gs : List ℤ) :
    List.Chain' (fun a b => a + MIN_REQUEST_INTERVAL ≤ b) (rlRun s gs) ∧
    (rlRun s gs).headD 0 + (((rlRun s gs).length - 1 : ℕ) : ℤ) * MIN_REQUEST_INTERVAL
      ≤ (rlRun s gs).getLastD 0 ∧
    (∀ s2 : RLState, (rlAcquire s2).last = (rlAcquire s2).now) ∧
    (∀ ps : PState,
      (acquire ps).lastRequestTime = (rlAcquire ⟨ps.now, ps.lastRequestTime⟩).now ∧
      (acquire ps).now = (rlAcquire ⟨ps.now, ps.lastRequestTime⟩).now) := by
  refine ⟨rlRun_chain gs s, chain_spaced_total _ _ (rlRun_chain gs s), fun _ => rfl, ?_⟩
  intro ps
  by_cases h : ps.now - ps.lastRequestTime < MIN_REQUEST_INTERVAL <;>
    simp [acquire, rlAcquire, h]

/-- C9 (code_bug evidence): the code guards `last_request_time` with no
lock, so the read that fixes the sleep amount and the later write are not
one atomic unit: under the interleaving where both callers read before
either writes, both dispatch at the same instant (gap 0, inside one
`MIN_REQUEST_INTERVAL` window), whereas the serialized schedule spaces the
second dispatch a full interval after the first. -/
theorem race_no_mutual_exclusion :
    raceRun ⟨100000, 0, .start, .start⟩ [false, true, false, true]
      = ⟨100000, 100000, .done 100000, .done 100000⟩ ∧
    ¬ ((100000 : ℤ) + MIN_REQUEST_INTERVAL ≤ 100000) ∧
    raceRun ⟨100000, 0, .start, .start⟩ [false, false, true, true]
      = ⟨100150, 100150, .done 100000, .done 100150⟩ ∧
    (100000 : ℤ) + MIN_REQUEST_INTERVAL ≤ 100150 := by
  refine ⟨by decide, by decide, by decide, by decide⟩

/-- C1 (counterexample): `_sign_request` passes `PSS.DIGEST_LENGTH`, not
`PSS.MAX_LENGTH`, so the salt is 32 bytes rather than the maximum 62 the
test key permits, and the produced signature does not verify under
RSA-PSS/SHA-256/MGF1-SHA-256 with max-length salt. -/
theorem sign_max_salt_verify_fails :
    signRequestConfig.salt_length = SaltLenSpec.digestLength ∧
    SaltLenSpec.digestLength ≠ SaltLenSpec.maxLength ∧
    saltLenBytes testKey SaltLenSpec.maxLength = 62 ∧
    saltA.length = saltLenBytes testKey signRequestConfig.salt_length ∧
    rsassaPssVerify testPub msg1
      (signRequestBytes testKey "GET" "/trade-api/v2/markets" 1739000000000 saltA)
      (saltLenBytes testKey SaltLenSpec.maxLength) = false := by
  decide

/-- C1 (amended, proved): the signature is RSA-PSS with digest SHA-256,
MGF1 over SHA-256, and salt length equal to the SHA-256 digest length
(32 bytes, `PSS.DIGEST_LENGTH`); it verifies against the corresponding
public key under RSA-PSS/SHA-256/MGF1-SHA-256 with digest-length salt. -/
theorem sign_verifies_with_digest_length_salt :
    signRequestConfig = ⟨HashAlg.sha256, SaltLenSpec.digestLength, HashAlg.sha256⟩ ∧
    saltLenBytes testKey signRequestConfig.salt_length = 32 ∧
    rsassaPssVerify testPub msg1
      (signRequestBytes testKey "GET" "/trade-api/v2/markets" 1739000000000 saltA)
      32 = true := by
  decide

/-- C7 (counterexample): two invocations of the signing operation on
identical (method, path, timestamp, key) yield different signature bytes
when the backend's RNG draws different PSS salts, so the output is not a
function of those four inputs alone. -/
theorem sign_differs_across_drawn_salts :
    saltA ≠ saltB ∧ saltA.length = 32 ∧ saltB.length = 32 ∧
    signRequestBytes testKey "GET" "/trade-api/v2/markets" 1739000000000 saltA ≠
      signRequestBytes testKey "GET" "/trade-api/v2/markets" 1739000000000 saltB := by
  decide

/-- C3 (confirmed): against a transport returning 429 three times then 200,
the pipeline sleeps `0.5 * 2^attempt` seconds between attempts (500 ms,
1000 ms, 2000 ms), re-acquires the rate limiter and records a fresh
reference point on every attempt, computes and signs a fresh wall-clock
timestamp for each attempt (never reused), and returns the 200 body after
exactly 3 retries (4 dispatches). -/
theorem retry_backoff_scenario :
    (run429x3).1.toOption = some "MARKET-DATA" ∧
    resultErr run429x3 = none ∧
    (run429x3).2.dispatches.length = 4 ∧
    (run429x3).2.dispatches.map Dispatch.timestamp = [100000, 100500, 101500, 103500] ∧
    (run429x3).2.dispatches.map Dispatch.acquiredAt = [100000, 100500, 101500, 103500] ∧
    (run429x3).2.sleeps = [500, 1000, 2000] ∧
    (run429x3).2.lastRequestTime = 103500 ∧
    (∀ d ∈ (run429x3).2.dispatches, ∃ i, d.signature
      = signRequestStr testKey (pyUpper "get") (signedPathOf "/markets") d.timestamp (salts0 i)) := by
  refine ⟨by decide, by decide, by decide, by decide, by decide, by decide, by decide, ?_⟩
  intro d hd
  have h := requestGo_dispatches_spec testKey backoffTransport salts0 "get" "/markets" none
    3 0 ps0 d hd
  rcases h with h | h
  · exact absurd h (by simp [ps0])
  · exact h.2.2.2.2

/-- C3 witness: the general conjunct applied to the first dispatch of the
concrete run. -/
theorem retry_backoff_scenario_witness :
    (run429x3).1.toOption = some "MARKET-DATA" ∧
    (∃ d ∈ (run429x3).2.dispatches, ∃ i, d.signature
      = signRequestStr testKey (pyUpper "get") (signedPathOf "/markets") d.timestamp (salts0 i)) := by
  have h := retry_backoff_scenario
  have hne : (run429x3).2.dispatches ≠ [] := by
    intro hc
    have : (run429x3).2.dispatches.length = 4 := h.2.2.1
    rw [hc] at this
    simp at this
  exact ⟨h.1, ⟨_, List.head_mem hne, h.2.2.2.2.2.2.2 _ (List.head_mem hne)⟩⟩

/-- C4 (counterexample): exhausting the retry budget on 429s raises the
same exception kind (`httpx.HTTPStatusError`, the model's
`ReqError.httpStatusError`) that a 404 raises — there is no distinct
`ThrottledExhausted` error type for the caller to catch. -/
theorem throttle_exhausted_not_distinct :
    (resultErr run429x4).map ReqError.kindName = some "HTTPStatusError" ∧
    (resultErr run404).map ReqError.kindName = some "HTTPStatusError" ∧
    (resultErr run429x4).map ReqError.kindName = (resultErr run404).map ReqError.kindName := by
  refine ⟨by decide, by decide, by decide⟩

/-- C4 (amended, proved): with a transport returning 429 on all 4 attempts
(initial plus 3 retries) the pipeline terminates after exactly 4 dispatches
with no partial result, failing with the HTTP-status error that carries
status 429 and the response body; callers can distinguish throttling
exhaustion from other non-success statuses only by that carried status
code, not by a distinct error kind. -/
theorem throttle_exhausted_terminates :
    resultErr run429x4 = some (.httpStatusError 429 "slow") ∧
    (run429x4).1.toOption = none ∧
    (run429x4).2.dispatches.length = 4 ∧
    (run429x4).2.sleeps = [500, 1000, 2000] := by
  refine ⟨by decide, by decide, by decide, by decide⟩

/-- C2 (confirmed): the byte sequence the pipeline signs is the UTF-8
encoding of the concatenation of the decimal string of the timestamp, the
uppercased HTTP method, and the version-prefixed path, in that order with
no separators; the resulting signature bytes are base64-encoded with the
standard alphabet, producing no line wraps. -/
theorem signed_message_and_base64 (key : RsaPrivKey) (method endpoint : String)
    (ts : Int) (salt : List Nat) :
    utf8Encode (signMessage (pyUpper method) (signedPathOf endpoint) ts)
      = utf8Encode (toString ts ++ pyUpper method ++ (apiVersionSegment ++ endpoint)) ∧
    signRequestStr key (pyUpper method) (signedPathOf endpoint) ts salt
      = base64Encode (rsassaPssSign key
          (utf8Encode (toString ts ++ pyUpper method ++ (apiVersionSegment ++ endpoint))) salt) ∧
    (∀ c ∈ (signRequestStr key (pyUpper method) (signedPathOf endpoint) ts salt).data,
      isStdB64Char c = true ∧ c ≠ Char.ofNat 10) := by
  refine ⟨rfl, rfl, ?_⟩
  intro c hc
  have h : isStdB64Char c = true := base64Core_chars _ c hc
  exact ⟨h, isStdB64Char_ne_newline c h⟩

/-- C2 witness: the concrete signature string for `get /markets` at
timestamp 100000 is 128 characters, and its first character is in the
standard alphabet and is not a newline. -/
theorem signed_message_and_base64_witness :
    utf8Encode (signMessage (pyUpper "get") (signedPathOf "/markets") 100000)
      = utf8Encode (toString (100000 : Int) ++ pyUpper "get"
          ++ (apiVersionSegment ++ "/markets")) ∧
    (∃ c ∈ (signRequestStr testKey (pyUpper "get") (signedPathOf "/markets") 100000 saltA).data,
      isStdB64Char c = true ∧ c ≠ Char.ofNat 10) := by
  have h := signed_message_and_base64 testKey "get" "/markets" 100000 saltA
  have hlen : (signRequestStr testKey (pyUpper "get") (signedPathOf "/markets")
      100000 saltA).data.length = 128 := by decide
  have hne : (signRequestStr testKey (pyUpper "get") (signedPathOf "/markets")
      100000 saltA).data ≠ [] := by
    intro hc
    rw [hc] at hlen
    simp at hlen
  exact ⟨h.1, ⟨_, List.head_mem hne, h.2.2 _ (List.head_mem hne)⟩⟩

/-- C5 (confirmed): for every non-success status other than 429 the
pipeline fails immediately with the HTTP-status error carrying the status
code and the response body text, after exactly one transport dispatch and
zero backoff sleeps, even though the transport would have answered a
second attempt with 200. -/
theorem non_throttle_fails_immediately (status : Nat) (body extra : String)
    (method endpoint : String) (jb : Option Payload)
    (h1 : ¬(200 ≤ status ∧ status < 300)) (h2 : status ≠ 429) :
    resultErr (requestRun testKey [⟨status, body⟩, ⟨200, extra⟩] salts0 method endpoint jb ps0)
      = some (.httpStatusError status body) ∧
    (requestRun testKey [⟨status, body⟩, ⟨200, extra⟩] salts0
      method endpoint jb ps0).2.dispatches.length = 1 ∧
    (requestRun testKey [⟨status, body⟩, ⟨200, extra⟩] salts0
      method endpoint jb ps0).2.sleeps = [] := by
  have hacq : acquire ps0
      = { now := 100000, lastRequestTime := 100000, sleeps := [], dispatches := [] } := by
    decide
  have hatt : attemptOnce testKey [⟨status, body⟩, ⟨200, extra⟩] salts0 method endpoint jb ps0
      = ({ now := 100000, lastRequestTime := 100000, sleeps := [],
           dispatches := [⟨method, requestUrlOf endpoint, signedPathOf endpoint, 100000,
             signRequestStr testKey (pyUpper method) (signedPathOf endpoint) 100000 (salts0 0),
             jb, 100000⟩] }, some ⟨status, body⟩) := by
    simp [attemptOnce, hacq]
  have hrun : requestRun testKey [⟨status, body⟩, ⟨200, extra⟩] salts0 method endpoint jb ps0
      = (.error (.httpStatusError status body),
         { now := 100000, lastRequestTime := 100000, sleeps := [],
           dispatches := [⟨method, requestUrlOf endpoint, signedPathOf endpoint, 100000,
             signRequestStr testKey (pyUpper method) (signedPathOf endpoint) 100000 (salts0 0),
             jb, 100000⟩] }) := by
    rw [requestRun, requestGo, hatt]
    simp only [if_neg h2]
    rw [raiseForStatus, if_neg h1]
  rw [hrun]
  exact ⟨rfl, rfl, rfl⟩

/-- C5 witness: instantiated at a 404. -/
theorem non_throttle_fails_immediately_witness :
    resultErr run404 = some (.httpStatusError 404 "not found") ∧
    (run404).2.dispatches.length = 1 ∧
    (run404).2.sleeps = [] := by
  exact non_throttle_fails_immediately 404 "not found" "late" "get" "/markets" none
    (by decide) (by decide)

/-- C8 (counterexample): the default base URL already ends with the version
segment, so the signed path and the final request URL do not differ by
exactly the version prefix: the version prefix occurs in the URL as well
(the URL is the host concatenated with the whole signed path, so the two
differ by the host). -/
theorem signed_path_url_share_version_segment :
    apiVersionSegment.data <:+: API_BASE.data ∧
    requestUrlOf "/markets" = "https://api.elections.kalshi.com" ++ signedPathOf "/markets" ∧
    API_BASE = "https://api.elections.kalshi.com" ++ apiVersionSegment := by
  refine ⟨by decide, by decide, by decide⟩

/-- C8 (amended, proved): the string passed to the signer is exactly the
version prefix `/trade-api/v2` concatenated with the endpoint, and the
request is dispatched to the configured base URL concatenated with the
endpoint; under the default base URL the dispatch URL equals the host
concatenated with the signed path — the two differ by the host, the
version prefix occurring in both — and the signed path is never the
dispatch URL; every dispatch the pipeline records carries exactly these
two strings. -/
theorem signed_path_and_dispatch_url (endpoint : String) :
    signedPathOf endpoint = apiVersionSegment ++ endpoint ∧
    requestUrlOf endpoint = API_BASE ++ endpoint ∧
    requestUrlOf endpoint = "https://api.elections.kalshi.com" ++ signedPathOf endpoint ∧
    signedPathOf endpoint ≠ requestUrlOf endpoint ∧
    (∀ key transport salts method jb rl rn s,
      ∀ d ∈ (requestGo key transport salts method endpoint jb rl rn s).2.dispatches,
        d ∈ s.dispatches ∨ (d.path = signedPathOf endpoint ∧ d.url = requestUrlOf endpoint)) := by
  refine ⟨rfl, rfl, ?_, ?_, ?_⟩
  · show API_BASE ++ endpoint
      = "https://api.elections.kalshi.com" ++ (apiVersionSegment ++ endpoint)
    rw [← String.append_assoc,
      show ("https://api.elections.kalshi.com" ++ apiVersionSegment : String) = API_BASE from
        by decide]
  · intro heq
    have hlen := congrArg String.length heq
    simp only [signedPathOf, requestUrlOf, String.length_append] at hlen
    have l1 : (apiVersionSegment).length = 13 := rfl
    have l2 : (API_BASE).length = 45 := rfl
    omega
  · intro key transport salts method jb rl rn s d hd
    rcases requestGo_dispatches_spec key transport salts method endpoint jb rl rn s d hd
      with h | h
    · exact Or.inl h
    · exact Or.inr ⟨h.2.1, h.2.2.1⟩

/-- C8 witness: the dispatch-trace conjunct applied to the single dispatch
of a concrete run. -/
theorem signed_path_and_dispatch_url_witness :
    signedPathOf "/markets" = apiVersionSegment ++ "/markets" ∧
    signedPathOf "/markets" ≠ requestUrlOf "/markets" ∧
    (∃ d ∈ (requestGo testKey [] salts0 "GET" "/markets" none 3 0 ps0).2.dispatches,
      d.path = signedPathOf "/markets" ∧ d.url = requestUrlOf "/markets") := by
  have h := signed_path_and_dispatch_url "/markets"
  have hlen : (requestGo testKey [] salts0 "GET" "/markets" none 3 0 ps0).2.dispatches.length
      = 1 := by decide
  have hne : (requestGo testKey [] salts0 "GET" "/markets" none 3 0 ps0).2.dispatches ≠ [] := by
    intro hc
    rw [hc] at hlen
    simp at hlen
  refine ⟨h.1, h.2.2.2.1, ⟨_, List.head_mem hne, ?_⟩⟩
  rcases h.2.2.2.2 testKey [] salts0 "GET" none 3 0 ps0 _ (List.head_mem hne) with hmem | hgood
  · exact absurd hmem (by simp [ps0])
  · exact hgood

/-- C10 (confirmed): invalid `place_order` arguments (side not yes/no,
quantity below 1, price outside 1..99) return the corresponding error
string with the pipeline never entered and the rate-limiter state
unchanged (the whole process state is returned as-is); valid arguments
send a JSON body that carries action "buy" and a `yes_price` field exactly
when side is "yes" and a `no_price` field exactly when side is "no". -/
theorem place_order_validation (key : RsaPrivKey) (transport : List Resp)
    (salts : Nat → List Nat) (ticker side : String) (quantity price_cents : Int)
    (s : PState) :
    ((¬(side = "yes" ∨ side = "no") ∨ quantity < 1 ∨ price_cents < 1 ∨ 99 < price_cents) →
      (place_order key transport salts ticker side quantity price_cents s).2 = s ∧
      ((place_order key transport salts ticker side quantity price_cents s).1
          = "Error: side must be \x27yes\x27 or \x27no\x27, got \x27" ++ side ++ "\x27" ∨
       (place_order key transport salts ticker side quantity price_cents s).1
          = "Error: quantity must be positive integer, got " ++ toString quantity ∨
       (place_order key transport salts ticker side quantity price_cents s).1
          = "Error: price_cents must be 1-99, got " ++ toString price_cents)) ∧
    ((side = "yes" ∨ side = "no") → 1 ≤ quantity → 1 ≤ price_cents → price_cents ≤ 99 →
      (∀ d ∈ (place_order key transport salts ticker side quantity price_cents s).2.dispatches,
          d ∈ s.dispatches ∨
          d.jsonBody = some (orderPayload ticker side quantity price_cents)) ∧
      ("action", JVal.str "buy") ∈ orderPayload ticker side quantity price_cents ∧
      (side = "yes" →
        ("yes_price", JVal.int price_cents) ∈ orderPayload ticker side quantity price_cents ∧
        ∀ v, ("no_price", v) ∉ orderPayload ticker side quantity price_cents) ∧
      (side = "no" →
        ("no_price", JVal.int price_cents) ∈ orderPayload ticker side quantity price_cents ∧
        ∀ v, ("yes_price", v) ∉ orderPayload ticker side quantity price_cents)) := by
  constructor
  · intro hbad
    by_cases c1 : ¬(side = "yes" ∨ side = "no")
    · rw [place_order, if_pos c1]
      exact ⟨rfl, Or.inl rfl⟩
    · by_cases c2 : quantity < 1
      · rw [place_order, if_neg c1, if_pos c2]
        exact ⟨rfl, Or.inr (Or.inl rfl)⟩
      · have c3 : price_cents < 1 ∨ price_cents > 99 := by
          rcases hbad with h | h | h | h
          · exact absurd h c1
          · exact absurd h c2
          · exact Or.inl h
          · exact Or.inr h
        rw [place_order, if_neg c1, if_neg c2, if_pos c3]
        exact ⟨rfl, Or.inr (Or.inr rfl)⟩
  · intro hside hq hp1 hp2
    have c1 : ¬¬(side = "yes" ∨ side = "no") := not_not_intro hside
    have c2 : ¬(quantity < 1) := by omega
    have c3 : ¬(price_cents < 1 ∨ price_cents > 99) := by
      rw [not_or]
      exact ⟨by omega, by omega⟩
    refine ⟨?_, ?_, ?_, ?_⟩
    · intro d hd
      rw [place_order, if_neg c1, if_neg c2, if_neg c3] at hd
      rcases hrr : requestRun key transport salts "POST" "/portfolio/orders"
        (some (orderPayload ticker side quantity price_cents)) s with ⟨res, s2⟩
      rw [hrr] at hd
      have hdisp : d ∈ s2.dispatches := by
        cases res <;> simpa using hd
      rw [requestRun] at hrr
      have hs2 : (requestGo key transport salts "POST" "/portfolio/orders"
          (some (orderPayload ticker side quantity price_cents)) 3 0 s).2 = s2 := by
        rw [hrr]
      rcases requestGo_dispatches_spec key transport salts "POST" "/portfolio/orders"
        (some (orderPayload ticker side quantity price_cents)) 3 0 s d
        (by rw [hs2]; exact hdisp) with h | h
      · exact Or.inl h
      · exact Or.inr h.2.2.2.1
    · rcases hside with h | h <;> subst h <;> simp [orderPayload]
    · intro hyes
      subst hyes
      refine ⟨by simp [orderPayload], ?_⟩
      intro v
      simp [orderPayload]
    · intro hno
      subst hno
      refine ⟨by simp [orderPayload], ?_⟩
      intro v
      simp [orderPayload]

/-- C10 witness: the invalid branch at side "maybe" (state unchanged, error
string returned), and the valid branch at a yes-order whose single dispatch
carries the buy payload with `yes_price`. -/
theorem place_order_validation_witness :
    ((place_order testKey orderTransport salts0 "KXTEST" "maybe" 5 50 ps0).2 = ps0 ∧
     ((place_order testKey orderTransport salts0 "KXTEST" "maybe" 5 50 ps0).1
        = "Error: side must be \x27yes\x27 or \x27no\x27, got \x27" ++ "maybe" ++ "\x27" ∨
      (place_order testKey orderTransport salts0 "KXTEST" "maybe" 5 50 ps0).1
        = "Error: quantity must be positive integer, got " ++ toString (5 : Int) ∨
      (place_order testKey orderTransport salts0 "KXTEST" "maybe" 5 50 ps0).1
        = "Error: price_cents must be 1-99, got " ++ toString (50 : Int))) ∧
    (∃ d ∈ (place_order testKey orderTransport salts0 "KXTEST" "yes" 5 50 ps0).2.dispatches,
      d.jsonBody = some (orderPayload "KXTEST" "yes" 5 50)) ∧
    ("action", JVal.str "buy") ∈ orderPayload "KXTEST" "yes" 5 50 ∧
    ("yes_price", JVal.int 50) ∈ orderPayload "KXTEST" "yes" 5 50 := by
  have hinv := (place_order_validation testKey orderTransport salts0 "KXTEST" "maybe"
    5 50 ps0).1 (Or.inl (by decide))
  have hval := (place_order_validation testKey orderTransport salts0 "KXTEST" "yes"
    5 50 ps0).2 (Or.inl rfl) (by norm_num) (by norm_num) (by norm_num)
  have hlen : (place_order testKey orderTransport salts0 "KXTEST" "yes"
      5 50 ps0).2.dispatches.length = 1 := by decide
  have hne : (place_order testKey orderTransport salts0 "KXTEST" "yes"
      5 50 ps0).2.dispatches ≠ [] := by
    intro hc
    rw [hc] at hlen
    simp at hlen
  refine ⟨hinv, ⟨_, List.head_mem hne, ?_⟩, hval.2.1, (hval.2.2.1 rfl).1⟩
  rcases hval.1 _ (List.head_mem hne) with hmem | hgood
  · exact absurd hmem (by simp [ps0])
  · exact hgood

/-- C7 (amended, proved): the signing operation is a deterministic pure
function of (method, path, timestamp, key, salt) — with the drawn salt
fixed it reproduces an explicit constant signature — and invocations that
draw different salts produce different bytes. -/
theorem sign_deterministic_given_salt :
    signRequestBytes testKey "GET" "/trade-api/v2/markets" 1739000000000 saltA = sig1Golden ∧
    signRequestStr testKey "GET" "/trade-api/v2/markets" 1739000000000 saltA
      = base64Encode sig1Golden ∧
    signRequestBytes testKey "GET" "/trade-api/v2/markets" 1739000000000 saltB ≠ sig1Golden := by
  refine ⟨by decide, ?_, by decide⟩
  unfold signRequestStr
  rw [show signRequestBytes testKey "GET" "/trade-api/v2/markets" 1739000000000 saltA
    = sig1Golden from by decide]

end KalshiMCP
